import Mathlib

/-!
# Verification of the lovable-clone agents-service orchestration core

This file gives a shallow embedding, in Lean, of the Python code in
`agents-service/` (the Claude-Code bridge `plugins/claude_code_bridge.py`,
the agent `agents/game_developer_agent.py`, and the plugin
`plugins/claude_code_plugin.py`), and proves or refutes the frozen claims
about that code.

Conventions of the embedding:
* Python strings are Lean `String`s; the helper functions `pyFind`,
  `pyRFind`, `pySlice`, `pyStrip`, `pyReplaceChar` mirror the Python
  `str` methods used by the source (`find`, `rfind`, slicing, `strip`,
  single-character `replace`).
* JSON values produced by `json.loads` are modelled by the inductive
  `PyVal`; `pyJsonLoads` is an executable JSON decoder with the same
  acceptance behaviour as Python's strict `json.loads` on the inputs
  that matter here (objects, arrays, strings, numbers, booleans, null;
  trailing non-whitespace data is rejected).
* Python dictionaries are association lists (`PyDict`) with
  insertion-order preserved and key update in place (`dictSet`),
  matching CPython's ordered dicts.
* Effectful operations (subprocess execution, chat-service calls, the
  filesystem) are modelled by passing the outcome of the external call
  (`ExecOutcome`, `SvcOutcome`, `QueryOutcome`) and, for the bridge, an
  explicit list of filesystem paths, as arguments.
-/

namespace LovableClone

/-- Whitespace as stripped by Python's `str.strip()` (the ASCII cases). -/
def pyIsSpace (c : Char) : Bool :=
  c == ' ' || c == '\t' || c == '\n' || c == '\r' ||
    c == Char.ofNat 11 || c == Char.ofNat 12

/-- First index `≥ k` (reported relative to the original list) at which
`pat` occurs in `hay`; the worker behind Python's `str.find`. -/
def findSubAux (pat : List Char) : List Char → Nat → Option Nat
  | [], i => if pat.isPrefixOf ([] : List Char) then some i else none
  | h :: t, i =>
    if pat.isPrefixOf (h :: t) then some i else findSubAux pat t (i + 1)

/-- Python `s.find(pat, start)`: index of the first occurrence of `pat`
at or after `start`, `none` when absent (Python returns `-1`). -/
def pyFindFrom (s pat : String) (start : Nat) : Option Nat :=
  (findSubAux pat.data (s.data.drop start) 0).map (· + start)

/-- Python `s.find(pat)`. -/
def pyFind (s pat : String) : Option Nat :=
  pyFindFrom s pat 0

/-- Python `pat in s` (substring containment). -/
def pyContains (s pat : String) : Bool :=
  (pyFind s pat).isSome

/-- Python `s.rfind(pat)`: index of the last occurrence of `pat`. -/
def pyRFind (s pat : String) : Option Nat :=
  ((List.range (s.data.length + 1)).filterMap
    (fun i => if pat.data.isPrefixOf (s.data.drop i) then some i else none)).getLast?

/-- Python slicing `s[a:b]` for non-negative bounds (clamped; empty when
`a ≥ b`). -/
def pySlice (s : String) (a b : Nat) : String :=
  ⟨(s.data.take b).drop a⟩

/-- Python `s.strip()`. -/
def pyStrip (s : String) : String :=
  ⟨((s.data.dropWhile pyIsSpace).reverse.dropWhile pyIsSpace).reverse⟩

/-- Replace a character by a string, the building block of the
single-character `str.replace` calls in the source. -/
def replChar (c : Char) (r : List Char) : Char → List Char :=
  fun x => if x = c then r else [x]

/-- Python `s.replace(c, r)` for a single-character needle `c`. -/
def pyReplaceChar (s : String) (c : Char) (r : String) : String :=
  ⟨s.data.flatMap (replChar c r.data)⟩

/-- Python `s.endswith(suf)`. -/
def pyEndsWith (s suf : String) : Bool :=
  suf.data.isSuffixOf s.data

/-- JSON values as returned by Python's `json.loads` (numbers keep their
source token, which is all the code under study ever inspects). -/
inductive PyVal where
  | none
  | bool (b : Bool)
  | num (raw : String)
  | str (s : String)
  | list (xs : List PyVal)
  | dict (entries : List (String × PyVal))

/-- A Python dict, insertion ordered. -/
abbrev PyDict := List (String × PyVal)

/-- Python `d[k]` lookup / `k in d` combined: the current value of key
`k`, if present. -/
def dictGet : PyDict → String → Option PyVal
  | [], _ => Option.none
  | (k', v) :: t, k => if k' = k then some v else dictGet t k

/-- Python `d.get(k, dflt)`. -/
def dictGetD (d : PyDict) (k : String) (dflt : PyVal) : PyVal :=
  (dictGet d k).getD dflt

/-- Python `d[k] = v`: update in place when the key exists, else append
(CPython dicts preserve insertion order). -/
def dictSet : PyDict → String → PyVal → PyDict
  | [], k, v => [(k, v)]
  | (k', v') :: t, k, v =>
    if k' = k then (k', v) :: t else (k', v') :: dictSet t k v

/-- Python `d.update(es)`. -/
def dictUpdate (d : PyDict) (es : PyDict) : PyDict :=
  es.foldl (fun acc kv => dictSet acc kv.1 kv.2) d

/-- Python truthiness of a JSON-decoded value (`if x:`). A number is
truthy when it has a nonzero digit. -/
def pyTruthy : PyVal → Bool
  | .none => false
  | .bool b => b
  | .num raw => (raw.data.filter Char.isDigit).any (· != '0')
  | .str s => s != ""
  | .list xs => !xs.isEmpty
  | .dict es => !es.isEmpty

/-! ## A strict JSON decoder mirroring Python's `json.loads` -/

/-- The opening-brace character. -/
def lbraceChar : Char := Char.ofNat 123

/-- The closing-brace character. -/
def rbraceChar : Char := Char.ofNat 125

/-- The double-quote character. -/
def quoteChar : Char := Char.ofNat 34

/-- The backquote character (the JavaScript template-literal quote). -/
def btickChar : Char := Char.ofNat 96

/-- JSON insignificant whitespace. -/
def jsonWs (c : Char) : Bool :=
  c == ' ' || c == '\t' || c == '\n' || c == '\r'

/-- Skip JSON whitespace. -/
def skipWs (cs : List Char) : List Char :=
  cs.dropWhile jsonWs

/-- Value of a hex digit. -/
def hexVal (c : Char) : Option Nat :=
  if '0' ≤ c ∧ c ≤ '9' then some (c.toNat - '0'.toNat)
  else if 'a' ≤ c ∧ c ≤ 'f' then some (c.toNat - 'a'.toNat + 10)
  else if 'A' ≤ c ∧ c ≤ 'F' then some (c.toNat - 'A'.toNat + 10)
  else Option.none

/-- Four hex digits, for `\uXXXX` escapes. -/
def parseHex4 : List Char → Option (Nat × List Char)
  | a :: b :: c :: d :: rest =>
    match hexVal a, hexVal b, hexVal c, hexVal d with
    | some x, some y, some z, some w => some (((x * 16 + y) * 16 + z) * 16 + w, rest)
    | _, _, _, _ => Option.none
  | _ => Option.none

/-- Decimal digit span. -/
def spanDigits (cs : List Char) : List Char × List Char :=
  (cs.takeWhile Char.isDigit, cs.dropWhile Char.isDigit)

/-- JSON number token (grammar of RFC 8259, as enforced by Python's
`json.loads`); returns the raw token and the rest of the input. -/
def parseNumTok (cs : List Char) : Option (List Char × List Char) :=
  let (sign, cs1) :=
    match cs with
    | '-' :: t => (['-'], t)
    | _ => (([] : List Char), cs)
  match cs1 with
  | '0' :: t => parseNumRest (sign ++ ['0']) t
  | c :: _ =>
    if c.isDigit then
      let (ds, rest) := spanDigits cs1
      parseNumRest (sign ++ ds) rest
    else Option.none
  | [] => Option.none
where
  /-- Optional fraction and exponent after the integer part. -/
  parseNumRest (intTok : List Char) (cs : List Char) :
      Option (List Char × List Char) :=
    let (fracTok, cs2) :=
      match cs with
      | '.' :: t =>
        match spanDigits t with
        | ([], _) => (Option.none, cs)
        | (ds, rest) => (some ('.' :: ds), rest)
      | _ => (Option.none, cs)
    match fracTok, cs with
    | Option.none, '.' :: _ => Option.none
    | _, _ =>
      let frac := fracTok.getD []
      match cs2 with
      | e :: t =>
        if e = 'e' ∨ e = 'E' then
          let (esign, t2) :=
            match t with
            | '+' :: u => (['+'], u)
            | '-' :: u => (['-'], u)
            | _ => (([] : List Char), t)
          match spanDigits t2 with
          | ([], _) => Option.none
          | (ds, rest) => some (intTok ++ frac ++ e :: esign ++ ds, rest)
        else some (intTok ++ frac, cs2)
      | [] => some (intTok ++ frac, cs2)

mutual

/-- One JSON value (fuelled recursion; every recursive call consumes at
least one input character, so `length + 1` fuel always suffices). -/
def parseValue : Nat → List Char → Option (PyVal × List Char)
  | 0, _ => Option.none
  | fuel + 1, cs =>
    match skipWs cs with
    | 't' :: 'r' :: 'u' :: 'e' :: rest => some (PyVal.bool true, rest)
    | 'f' :: 'a' :: 'l' :: 's' :: 'e' :: rest => some (PyVal.bool false, rest)
    | 'n' :: 'u' :: 'l' :: 'l' :: rest => some (PyVal.none, rest)
    | c :: rest =>
      if c = lbraceChar then parseObjBody fuel rest
      else if c = '[' then parseArrBody fuel rest
      else if c = quoteChar then
        (parseJStr fuel [] rest).map (fun p => (PyVal.str p.1, p.2))
      else (parseNumTok (c :: rest)).map (fun p => (PyVal.num ⟨p.1⟩, p.2))
    | [] => Option.none

/-- Body of an object, after the opening brace. -/
def parseObjBody : Nat → List Char → Option (PyVal × List Char)
  | 0, _ => Option.none
  | fuel + 1, cs =>
    match skipWs cs with
    | c :: rest =>
      if c = rbraceChar then some (PyVal.dict [], rest)
      else parseMembers fuel [] (c :: rest)
    | [] => Option.none

/-- Members of an object (at a position expecting a key). -/
def parseMembers : Nat → PyDict → List Char → Option (PyVal × List Char)
  | 0, _, _ => Option.none
  | fuel + 1, acc, cs =>
    match skipWs cs with
    | c :: rest =>
      if c = quoteChar then
        match parseJStr fuel [] rest with
        | some (k, rest2) =>
          match skipWs rest2 with
          | ':' :: rest3 =>
            match parseValue fuel rest3 with
            | some (v, rest4) =>
              match skipWs rest4 with
              | c5 :: rest5 =>
                if c5 = ',' then parseMembers fuel (dictSet acc k v) rest5
                else if c5 = rbraceChar then
                  some (PyVal.dict (dictSet acc k v), rest5)
                else Option.none
              | [] => Option.none
            | Option.none => Option.none
          | _ => Option.none
        | Option.none => Option.none
      else Option.none
    | [] => Option.none

/-- Body of an array, after the opening bracket. -/
def parseArrBody : Nat → List Char → Option (PyVal × List Char)
  | 0, _ => Option.none
  | fuel + 1, cs =>
    match skipWs cs with
    | ']' :: rest => some (PyVal.list [], rest)
    | cs2 => parseElems fuel [] cs2

/-- Elements of an array (at a position expecting a value). -/
def parseElems : Nat → List PyVal → List Char → Option (PyVal × List Char)
  | 0, _, _ => Option.none
  | fuel + 1, acc, cs =>
    match parseValue fuel cs with
    | some (v, rest) =>
      match skipWs rest with
      | ',' :: rest2 => parseElems fuel (v :: acc) rest2
      | ']' :: rest2 => some (PyVal.list (v :: acc).reverse, rest2)
      | _ => Option.none
    | Option.none => Option.none

/-- JSON string contents, after the opening quote. -/
def parseJStr : Nat → List Char → List Char → Option (String × List Char)
  | 0, _, _ => Option.none
  | _ + 1, _, [] => Option.none
  | fuel + 1, acc, c :: rest =>
    if c = quoteChar then some (⟨acc.reverse⟩, rest)
    else if c = '\\' then
      match rest with
      | [] => Option.none
      | e :: rest2 =>
        if e = quoteChar then parseJStr fuel (quoteChar :: acc) rest2
        else if e = '\\' then parseJStr fuel ('\\' :: acc) rest2
        else if e = '/' then parseJStr fuel ('/' :: acc) rest2
        else if e = 'b' then parseJStr fuel (Char.ofNat 8 :: acc) rest2
        else if e = 'f' then parseJStr fuel (Char.ofNat 12 :: acc) rest2
        else if e = 'n' then parseJStr fuel ('\n' :: acc) rest2
        else if e = 'r' then parseJStr fuel ('\r' :: acc) rest2
        else if e = 't' then parseJStr fuel ('\t' :: acc) rest2
        else if e = 'u' then
          match parseHex4 rest2 with
          | some (n, rest3) => parseJStr fuel (Char.ofNat n :: acc) rest3
          | Option.none => Option.none
        else Option.none
    else if c.toNat < 32 then Option.none
    else parseJStr fuel (c :: acc) rest

end

/-- Python's `json.loads`: one JSON value, surrounded only by
whitespace; anything else (including trailing data) is a decode error,
modelled as `none`. -/
def pyJsonLoads (s : String) : Option PyVal :=
  match parseValue (s.data.length + 1) s.data with
  | some (v, rest) => if skipWs rest = [] then some v else Option.none
  | Option.none => Option.none

/-! ## `plugins/claude_code_bridge.py` -/

/-- The dictionary returned by `ClaudeCodeBridge._parse_node_output` when
JSON decoding of the chosen payload fails (source lines 232-240). -/
def malformedResult (output : String) : PyDict :=
  [("success", PyVal.bool false),
   ("error", PyVal.str ("Failed to parse Node.js output: " ++ output)),
   ("messages", PyVal.list []),
   ("filesCreated", PyVal.list []),
   ("codeGenerated", PyVal.dict []),
   ("summary", PyVal.str "")]

/-- `ClaudeCodeBridge._parse_node_output` (source lines 211-240): scan for
the `RESULT_START`/`RESULT_END` pair, else the `ERROR_START`/`ERROR_END`
pair, else decode the whole stdout; a failed decode yields
`malformedResult`.  `12` and `11` are the lengths of `RESULT_START` and
`ERROR_START`. -/
def parse_node_output (output : String) : PyVal :=
  let attempt : Option PyVal :=
    if pyContains output "RESULT_START" && pyContains output "RESULT_END" then
      pyJsonLoads (pyStrip (pySlice output
        ((pyFind output "RESULT_START").getD 0 + 12)
        ((pyFind output "RESULT_END").getD 0)))
    else if pyContains output "ERROR_START" && pyContains output "ERROR_END" then
      pyJsonLoads (pyStrip (pySlice output
        ((pyFind output "ERROR_START").getD 0 + 11)
        ((pyFind output "ERROR_END").getD 0)))
    else pyJsonLoads output
  match attempt with
  | some v => v
  | Option.none => PyVal.dict (malformedResult output)

/-- `ClaudeCodeBridge._escape_js_string` (source lines 207-209):
`s.replace` of backslash, then backtick, then dollar. -/
def escape_js_string (s : String) : String :=
  pyReplaceChar (pyReplaceChar (pyReplaceChar s '\\' "\\\\") btickChar "\\`") '$' "\\$"

/-- Primary-artifact selection of
`ClaudeCodeBridge.generate_game_with_claude_code` (source lines 102-116):
the loop over `codeGenerated.items()` breaking at the first `.html` key,
followed by the `if not game_code and code_generated` fallback to the
first entry.  Returns `(game_code, filename)`. -/
def selectArtifact (cg : PyDict) : PyVal × String :=
  if cg.isEmpty then (PyVal.str "", "game.html")
  else
    let fromHtml :=
      match cg.find? (fun p => pyEndsWith p.1 ".html") with
      | some (f, c) => (c, f)
      | Option.none => (PyVal.str "", "game.html")
    if pyTruthy fromHtml.1 then fromHtml
    else
      match cg with
      | (f, c) :: _ => (c, f)
      | [] => fromHtml

/-- Outcome of `asyncio.create_subprocess_exec` + `communicate` (the only
suspension in the bridge): either the process completed with an exit code
and captured streams, or an exception was raised during execution. -/
inductive ExecOutcome where
  | completed (returncode : Int) (stdout stderr : String)
  | raised (msg : String)

/-- One `generate_game_with_claude_code` invocation, with the observable
effects the claims talk about: the returned dictionary, the filesystem
after the call (a list of existing paths), the working directory the
subprocess was launched in (`cwd=self.website_path`, source line 76) and
the temporary script path (source line 68). -/
structure BridgeCall where
  result : PyDict
  fsAfter : List String
  cwd : String
  scriptPath : String

/-- The error dictionary shape shared by the bridge failure returns
(source lines 87-93 and 141-148). -/
def bridgeFailure (msg : String) : PyDict :=
  [("success", PyVal.bool false),
   ("error", PyVal.str msg),
   ("game_code", PyVal.str ""),
   ("files_created", PyVal.list []),
   ("summary", PyVal.str "")]

/-- Python type name of a decoded JSON value (as it appears in an
`AttributeError`; numbers are reported as their float/int class, which no
claim inspects). -/
def pyTypeName : PyVal → String
  | .none => "NoneType"
  | .bool _ => "bool"
  | .num _ => "int"
  | .str _ => "str"
  | .list _ => "list"
  | .dict _ => "dict"

/-- Success dictionary of the bridge (source lines 118-125). -/
def bridgeSuccess (result : PyDict) (sel : PyVal × String) : PyDict :=
  [("success", PyVal.bool true),
   ("game_code", sel.1),
   ("filename", PyVal.str sel.2),
   ("files_created", dictGetD result "filesCreated" (PyVal.list [])),
   ("summary", dictGetD result "summary"
      (PyVal.str "Game generated successfully using Claude Code SDK")),
   ("messages", dictGetD result "messages" (PyVal.list []))]

/-- The dictionary returned by one bridge invocation, as a function of
the subprocess outcome (source lines 86-148): every failure is converted
into an error dictionary by the two `except` blocks; attribute errors
raised by non-dict payload fields are routed to the outer handler as in
Python (the wording of an `AttributeError` is approximated; no claim
reads it). -/
def bridgeResultDict (outcome : ExecOutcome) : PyDict :=
  match outcome with
  | .raised e =>
    bridgeFailure ("Failed to execute Claude Code bridge: " ++ e)
  | .completed rc stdout stderr =>
    if rc ≠ 0 then
      bridgeFailure ("Node.js execution failed: " ++ stderr)
    else
      match parse_node_output stdout with
      | PyVal.dict result =>
        if pyTruthy (dictGetD result "success" PyVal.none) then
          match dictGetD result "codeGenerated" (PyVal.dict []) with
          | PyVal.dict es => bridgeSuccess result (selectArtifact es)
          | v =>
            if pyTruthy v then
              bridgeFailure ("Failed to execute Claude Code bridge: " ++
                pyTypeName v ++ " object has no attribute items")
            else
              bridgeSuccess result (PyVal.str "", "game.html")
        else
          [("success", PyVal.bool false),
           ("error", dictGetD result "error"
              (PyVal.str "Unknown error from Claude Code")),
           ("game_code", PyVal.str ""),
           ("files_created", PyVal.list []),
           ("summary", PyVal.str "")]
      | v =>
        bridgeFailure ("Failed to execute Claude Code bridge: " ++
          pyTypeName v ++ " object has no attribute get")

/-- `ClaudeCodeBridge.generate_game_with_claude_code` (source lines
28-148).  The script is written into the (shared) website directory at
the fixed path `temp_claude_code_bridge.js` (source line 68), the
subprocess runs with `cwd = websitePath` (source line 76), and the
script — and only the script — is removed before returning, on the
success path (line 84) and in the `except` block (lines 136-138)
alike. -/
def generate_game_with_claude_code (websitePath _prompt : String)
    (outcome : ExecOutcome) (fs : List String) : BridgeCall :=
  let script_path := websitePath ++ "/temp_claude_code_bridge.js"
  let fs1 := if script_path ∈ fs then fs else script_path :: fs
  ⟨bridgeResultDict outcome, fs1.erase script_path, websitePath, script_path⟩

/-! ## `agents/game_developer_agent.py` -/

/-- The dictionary `_parse_agent_response` starts from (source lines
185-188). -/
def baseResult (content : String) : PyDict :=
  [("success", PyVal.bool true), ("summary", PyVal.str content)]

/-- The fenced-code step of `GameDeveloperAgent._parse_agent_response`
(source lines 190-196): first occurrence of a ```html fence, closed by
the next ``` strictly after the opening; the inner text is stripped and
the filename fixed to `game.html`. -/
def fenceResult (content : String) : PyDict :=
  if pyContains content "```html" then
    match pyFindFrom content "```" ((pyFind content "```html").getD 0 + 7) with
    | some e =>
      if (pyFind content "```html").getD 0 + 7 < e then
        dictSet (dictSet (baseResult content) "game_code"
            (PyVal.str (pyStrip (pySlice content
              ((pyFind content "```html").getD 0 + 7) e))))
          "filename" (PyVal.str "game.html")
      else baseResult content
    | Option.none => baseResult content
  else baseResult content

/-- The body of the `try` in the trailing-JSON step (source lines
200-210): `json_start = content.rfind("\x7b")`,
`json_end = content.rfind("\x7d") + 1`; when `json_start < json_end`
decode the span and merge a decoded dict into the result; every decode
failure is swallowed by the bare `except`. -/
def enrichTrailing (result : PyDict) (content : String) (i j : Nat) : PyDict :=
  if i < j + 1 then
    match pyJsonLoads (pySlice content i (j + 1)) with
    | some (PyVal.dict es) => dictUpdate result es
    | _ => result
  else result

/-- `GameDeveloperAgent._parse_agent_response` (source lines 176-212):
the fenced-code step followed by the best-effort trailing-JSON
enrichment.  The `rfind` calls cannot return `-1` under the containment
guard, so `getD 0` is never exercised. -/
def parse_agent_response (content : String) : PyDict :=
  if pyContains content "\x7b" && pyContains content "\x7d" then
    enrichTrailing (fenceResult content) content
      ((pyRFind content "\x7b").getD 0) ((pyRFind content "\x7d").getD 0)
  else fenceResult content

/-- Outcome of the chat-completion service call made by the agent: the
list of returned message contents, or an exception. -/
inductive SvcOutcome where
  | raised (msg : String)
  | returned (contents : List String)

/-- `GameDeveloperAgent.generate_game` (source lines 49-117), as a
function of the service outcome.  The `chat_history` entry of the
returned dictionary (an opaque conversation object) is omitted; all
string-valued fields are modelled exactly. -/
def generate_game (svc : SvcOutcome) : PyDict :=
  match svc with
  | .raised e =>
    [("success", PyVal.bool false), ("error", PyVal.str e)]
  | .returned [] =>
    [("success", PyVal.bool false),
     ("error", PyVal.str "No response from AI service")]
  | .returned (content :: _) =>
    let p := parse_agent_response content
    [("success", dictGetD p "success" (PyVal.bool true)),
     ("game_code", dictGetD p "game_code" (PyVal.str "")),
     ("filename", dictGetD p "filename" (PyVal.str "game.html")),
     ("summary", dictGetD p "summary" (PyVal.str content)),
     ("agent_response", PyVal.str content)]

/-- The text of the review prompt before the feedback interpolation. -/
def reviewTplA : String :=
  "The user has feedback about their game: \""

/-- The text of the review prompt between the feedback and the code. -/
def reviewTplB : String :=
  "\"\n\nPlease:\n1. Acknowledge their feedback positively\n2. Explain what improvements you\x27ll make\n3. Use the review_and_improve_game function to enhance the game\n4. Present the improvements in an encouraging way\n\nCurrent game code: "

/-- The text the review prompt appends after the sliced code. -/
def reviewTplC : String :=
  "... (truncated)"

/-- The prompt `GameDeveloperAgent.review_game` sends to the backend
(source lines 122-130): it embeds the feedback and `game_code[:500]`
followed by the literal `... (truncated)`. -/
def build_review_prompt (game_code feedback : String) : String :=
  reviewTplA ++ feedback ++ reviewTplB ++ pySlice game_code 0 500 ++ reviewTplC

/-- `GameDeveloperAgent.review_game` (source lines 119-174), as a
function of the service outcome. -/
def review_game (svc : SvcOutcome) (game_code : String) : PyDict :=
  match svc with
  | .raised e =>
    [("success", PyVal.bool false), ("error", PyVal.str e)]
  | .returned [] =>
    [("success", PyVal.bool false),
     ("error", PyVal.str "No response from AI service")]
  | .returned (content :: _) =>
    let p := parse_agent_response content
    [("success", dictGetD p "success" (PyVal.bool true)),
     ("improved_code", dictGetD p "improved_code" (PyVal.str game_code)),
     ("changes_summary", dictGetD p "changes_summary" (PyVal.str content)),
     ("agent_response", PyVal.str content)]

/-! ## `plugins/claude_code_plugin.py` -/

/-- A Claude Code SDK message as inspected by the plugin: its `type`
field and its `message.content` when that is a string (`none` models an
absent or non-string content). -/
structure NodeMsg where
  type : String
  content : Option String

/-- The ```html-fence branch of
`ClaudeCodePlugin._extract_game_code_from_messages` (source lines
221-225). -/
def contentFence (content : String) : Option String :=
  if pyContains content "```html" then
    match pyFindFrom content "```" ((pyFind content "```html").getD 0 + 7) with
    | some e =>
      if (pyFind content "```html").getD 0 + 7 < e then
        some (pyStrip (pySlice content ((pyFind content "```html").getD 0 + 7) e))
      else Option.none
    | Option.none => Option.none
  else Option.none

/-- The DOCTYPE branch of
`ClaudeCodePlugin._extract_game_code_from_messages` (source lines
228-232). -/
def contentDoctype (content : String) : Option String :=
  if pyContains content "<!DOCTYPE html>" then
    match pyFindFrom content "</html>" ((pyFind content "<!DOCTYPE html>").getD 0) with
    | some e =>
      if (pyFind content "<!DOCTYPE html>").getD 0 < e then
        some (pyStrip (pySlice content ((pyFind content "<!DOCTYPE html>").getD 0) (e + 7)))
      else Option.none
    | Option.none => Option.none
  else Option.none

/-- Per-message extraction: the fence branch, falling through to the
DOCTYPE branch when the fence does not return (source lines 219-232). -/
def contentExtract (content : String) : Option String :=
  (contentFence content).orElse (fun _ => contentDoctype content)

/-- `ClaudeCodePlugin._extract_game_code_from_messages` (source lines
214-241): scan messages from the most recent for an assistant message
with extractable code; otherwise fall back to the last assistant
message content; otherwise the empty string. -/
def extract_game_code_from_messages (ms : List NodeMsg) : String :=
  match ms.reverse.findSome?
      (fun m => if m.type = "assistant" then m.content.bind contentExtract
                else Option.none) with
  | some code => code
  | Option.none =>
    match ms.reverse.findSome?
        (fun m => if m.type = "assistant" then m.content else Option.none) with
    | some c => c
    | Option.none => ""

/-- `ClaudeCodePlugin._summarize_changes` (source lines 282-289). -/
def summarize_changes (original improved : String) : String :=
  if improved.length > original.length then
    "Enhanced the game with additional features and improvements"
  else if improved.length < original.length then
    "Optimized and streamlined the game code"
  else
    "Refined and improved the game implementation"

/-- `ClaudeCodePlugin._fallback_review` (source lines 302-309). -/
def fallback_review (game_code : String) : PyDict :=
  [("success", PyVal.bool false),
   ("error", PyVal.str "Claude Code SDK not available for code review."),
   ("improved_code", PyVal.str game_code),
   ("changes_summary", PyVal.str "Review requires Claude Code SDK")]

/-- Outcome of the Claude Code SDK `query` iteration in the plugin. -/
inductive QueryOutcome where
  | raised (msg : String)
  | messages (ms : List NodeMsg)

/-- `ClaudeCodePlugin.review_and_improve_code` (source lines 145-204), as
a function of SDK availability and of the query outcome.  The `messages`
entry of the success dictionary (the raw SDK objects) is omitted; all
other fields are modelled exactly. -/
def review_and_improve_code (available : Bool) (q : QueryOutcome)
    (game_code : String) : PyDict :=
  if !available then fallback_review game_code
  else
    match q with
    | .raised e =>
      [("success", PyVal.bool false),
       ("error", PyVal.str e),
       ("improved_code", PyVal.str game_code),
       ("changes_summary", PyVal.str "Error occurred during review")]
    | .messages ms =>
      let improved := extract_game_code_from_messages ms
      [("success", PyVal.bool true),
       ("improved_code", PyVal.str improved),
       ("changes_summary", PyVal.str (summarize_changes game_code improved))]

/-! ## Spec-side definitions and concrete inputs used by the claims -/

/-- Spec-side (claim C1): the payload the parser is said to decode — the
text strictly between the first occurrences of the sentinel markers,
stripped; else the error pair; else the whole stdout.  To be compared
with `parse_node_output`. -/
def chosenPayload (output : String) : String :=
  if pyContains output "RESULT_START" && pyContains output "RESULT_END" then
    pyStrip (pySlice output
      ((pyFind output "RESULT_START").getD 0 + ("RESULT_START" : String).length)
      ((pyFind output "RESULT_END").getD 0))
  else if pyContains output "ERROR_START" && pyContains output "ERROR_END" then
    pyStrip (pySlice output
      ((pyFind output "ERROR_START").getD 0 + ("ERROR_START" : String).length)
      ((pyFind output "ERROR_END").getD 0))
  else output

/-- Spec-side (claim C7): per-character effect of the three replacement
passes — escape the backslash, the quoting character and the
interpolation sigil, with no double-escaping of introduced
backslashes. -/
def escChar (c : Char) : List Char :=
  if c = '\\' then ['\\', '\\']
  else if c = btickChar then ['\\', btickChar]
  else if c = '$' then ['\\', '$']
  else [c]

/-- A 501-character game code, longer than the 500-character slice the
review prompt keeps (claim C8). -/
def longGameCode : String :=
  ⟨List.replicate 501 'Z'⟩

/-- A subprocess stdout whose RESULT payload maps a `.js` file to
nonempty content and an `.html` file to empty content (claim C2). -/
def stdoutHtmlEmpty : String :=
  "RESULT_START\n\x7b\"success\": true, \"codeGenerated\": \x7b\"a.js\": \"x\", \"b.html\": \"\"\x7d\x7d\nRESULT_END"

/-- A response whose trailing JSON-looking span has nested braces: the
last balanced span is valid JSON, but the rightmost-brace pair the code
actually takes is not (claim C3). -/
def nestedBraceResponse : String :=
  "Note \x7b\"summary\": \x7b\"n\": 1\x7d\x7d"

/-! ## Helper lemmas about the string primitives -/

theorem findSubAux_some {pat hay : List Char} {k i : Nat}
    (h : findSubAux pat hay k = some i) :
    k ≤ i ∧ pat.isPrefixOf (hay.drop (i - k)) := by
  induction hay generalizing k with
  | nil =>
    unfold findSubAux at h
    by_cases hp : pat.isPrefixOf ([] : List Char)
    · rw [if_pos hp, Option.some.injEq] at h
      subst h
      exact ⟨Nat.le_refl _, by simpa using hp⟩
    · rw [if_neg hp] at h
      exact absurd h (by simp)
  | cons a t ih =>
    unfold findSubAux at h
    by_cases hp : pat.isPrefixOf (a :: t)
    · rw [if_pos hp, Option.some.injEq] at h
      subst h
      simpa using hp
    · rw [if_neg hp] at h
      obtain ⟨hk, hpre⟩ := ih h
      refine ⟨Nat.le_of_succ_le hk, ?_⟩
      have hik : i - k = (i - (k + 1)) + 1 := by omega
      rw [hik]
      simpa using hpre

theorem pyFindFrom_some {s pat : String} {start i : Nat}
    (h : pyFindFrom s pat start = some i) :
    start ≤ i ∧ pat.data.isPrefixOf (s.data.drop i) := by
  unfold pyFindFrom at h
  cases hfs : findSubAux pat.data (s.data.drop start) 0 with
  | none => rw [hfs] at h; exact absurd h (by simp)
  | some i0 =>
    rw [hfs, Option.map_some'] at h
    obtain ⟨-, hpre⟩ := findSubAux_some hfs
    rw [Option.some.injEq] at h
    subst h
    constructor
    · omega
    · rw [List.drop_drop] at hpre
      simpa [Nat.add_comm] using hpre

theorem pyFind_some {s pat : String} {i : Nat}
    (h : pyFind s pat = some i) :
    pat.data.isPrefixOf (s.data.drop i) :=
  (pyFindFrom_some h).2

/-- `strip` is the identity on a string whose first and last characters
are not whitespace. -/
theorem pyStrip_of_ends {l : List Char} {c1 c2 : Char}
    (h1 : l.head? = some c1) (hs1 : pyIsSpace c1 = false)
    (h2 : l.getLast? = some c2) (hs2 : pyIsSpace c2 = false) :
    pyStrip ⟨l⟩ = ⟨l⟩ := by
  have hd : l.dropWhile pyIsSpace = l := by
    cases l with
    | nil => rfl
    | cons a t =>
      rw [List.head?_cons, Option.some.injEq] at h1
      subst h1
      rw [List.dropWhile_cons, if_neg (by simp [hs1])]
  have hr : l.reverse.dropWhile pyIsSpace = l.reverse := by
    have hh : l.reverse.head? = some c2 := by rw [List.head?_reverse]; exact h2
    cases hrev : l.reverse with
    | nil => rfl
    | cons a t =>
      rw [hrev, List.head?_cons, Option.some.injEq] at hh
      subst hh
      rw [List.dropWhile_cons, if_neg (by simp [hs2])]
  unfold pyStrip
  rw [show (String.mk l).data = l from rfl, hd, hr, List.reverse_reverse]

/-- A `match` on an option is `Option.getD`. -/
theorem matchGetD (o : Option PyVal) (m : PyVal) :
    (match o with | some v => v | Option.none => m) = o.getD m := by
  cases o <;> rfl

/-! ## The claims -/

/-- C1: for every subprocess stdout, `_parse_node_output` resolves it in
the fixed order — RESULT pair, else ERROR pair, else whole stdout — and
decodes the stripped text strictly between the first occurrences of the
chosen markers; when the chosen decode fails it returns the
malformed-output dictionary, whose `error` entry carries the raw stdout.
The function is total, so no exception reaches the caller. -/
theorem parse_node_output_resolution_order (output : String) :
    parse_node_output output
      = (pyJsonLoads (chosenPayload output)).getD (PyVal.dict (malformedResult output))
    ∧ dictGet (malformedResult output) "error"
      = some (PyVal.str ("Failed to parse Node.js output: " ++ output)) := by
  refine ⟨?_, rfl⟩
  unfold parse_node_output chosenPayload
  rw [show ("RESULT_START" : String).length = 12 from rfl,
    show ("ERROR_START" : String).length = 11 from rfl]
  split_ifs <;> exact matchGetD _ _

/-- C2 counterexample: on a decoded RESULT payload mapping `a.js` to
`"x"` and `b.html` to the empty string, the bridge returns the `.js`
entry as `game_code`/`filename`, not the first `.html` entry the claim
requires. -/
theorem bridge_artifact_selection_cex :
    dictGet (generate_game_with_claude_code "/site" "make a game"
        (ExecOutcome.completed 0 stdoutHtmlEmpty "") ["/site"]).result "game_code"
      = some (PyVal.str "x")
    ∧ dictGet (generate_game_with_claude_code "/site" "make a game"
        (ExecOutcome.completed 0 stdoutHtmlEmpty "") ["/site"]).result "filename"
      = some (PyVal.str "a.js")
    ∧ ¬ dictGet (generate_game_with_claude_code "/site" "make a game"
        (ExecOutcome.completed 0 stdoutHtmlEmpty "") ["/site"]).result "filename"
      = some (PyVal.str "b.html") := by
  refine ⟨rfl, rfl, fun hcon => ?_⟩
  rw [show dictGet (generate_game_with_claude_code "/site" "make a game"
      (ExecOutcome.completed 0 stdoutHtmlEmpty "") ["/site"]).result "filename"
      = some (PyVal.str "a.js") from rfl, Option.some.injEq] at hcon
  injection hcon with hstr
  exact absurd hstr (by decide)

/-- C2 amended: the bridge selects the first `.html`-keyed entry when
its content is truthy (a nonempty string); when the first `.html` entry
has empty content, or when no key ends in `.html`, it falls back to the
first entry of the mapping; an empty mapping yields `""` and
`game.html`. -/
theorem bridge_artifact_selection (cg : PyDict) (f : String) (c : PyVal) :
    (cg.find? (fun p => pyEndsWith p.1 ".html") = some (f, c) → pyTruthy c = true →
      selectArtifact cg = (c, f))
    ∧ (∀ h t, cg = h :: t →
        cg.find? (fun p => pyEndsWith p.1 ".html") = Option.none →
        selectArtifact cg = (h.2, h.1))
    ∧ (∀ h t, cg = h :: t →
        cg.find? (fun p => pyEndsWith p.1 ".html") = some (f, c) →
        pyTruthy c = false →
        selectArtifact cg = (h.2, h.1))
    ∧ selectArtifact [] = (PyVal.str "", "game.html") := by
  refine ⟨?_, ?_, ?_, rfl⟩
  · intro hf htr
    cases cg with
    | nil => rw [List.find?_nil] at hf; exact absurd hf (by simp)
    | cons a t => simp [selectArtifact, hf, htr]
  · rintro ⟨f0, c0⟩ t rfl hn
    simp [selectArtifact, hn, pyTruthy]
  · rintro ⟨f0, c0⟩ t rfl hf htr
    simp [selectArtifact, hf, htr]

/-- Witness for C2: the three selection branches at concrete mappings. -/
theorem bridge_artifact_selection_witness :
    selectArtifact [("a.js", PyVal.str "x"), ("g.html", PyVal.str "<h>")]
      = (PyVal.str "<h>", "g.html")
    ∧ selectArtifact [("a.js", PyVal.str "x")] = (PyVal.str "x", "a.js")
    ∧ selectArtifact [("a.js", PyVal.str "x"), ("b.html", PyVal.str "")]
      = (PyVal.str "x", "a.js") := by
  refine ⟨?_, ?_, ?_⟩
  · exact (bridge_artifact_selection _ "g.html" (PyVal.str "<h>")).1 rfl rfl
  · exact (bridge_artifact_selection _ "" PyVal.none).2.1 ("a.js", PyVal.str "x") [] rfl rfl
  · exact (bridge_artifact_selection _ "b.html" (PyVal.str "")).2.2.1
      ("a.js", PyVal.str "x") [("b.html", PyVal.str "")] rfl rfl rfl

/-- C3 counterexample: on a response whose trailing JSON-looking span
contains nested braces, the balanced span is valid JSON (so the claimed
backwards search would enrich), yet the code — which takes the span from
the rightmost `\x7b` to the rightmost `\x7d` — decodes an invalid
fragment and performs no enrichment. -/
theorem trailing_json_enrichment_cex :
    parse_agent_response nestedBraceResponse = baseResult nestedBraceResponse
    ∧ pyJsonLoads "\x7b\"summary\": \x7b\"n\": 1\x7d\x7d"
      = some (PyVal.dict [("summary", PyVal.dict [("n", PyVal.num "1")])])
    ∧ ¬ dictGet (parse_agent_response nestedBraceResponse) "summary"
      = some (PyVal.dict [("n", PyVal.num "1")]) := by
  refine ⟨rfl, rfl, fun hcon => ?_⟩
  rw [show dictGet (parse_agent_response nestedBraceResponse) "summary"
      = some (PyVal.str nestedBraceResponse) from rfl, Option.some.injEq] at hcon
  exact PyVal.noConfusion hcon

/-- C3 amended: the extractor takes the single span from the rightmost
opening brace to the rightmost closing brace (when the former precedes
the latter) and attempts one JSON decode of it; a decoded object is
merged into the result as overrides, any failure leaves the result
unchanged and raises nothing (there is no backwards search for a
parsable span). -/
theorem trailing_json_enrichment (content : String) (i j : Nat)
    (hb : pyContains content "\x7b" = true) (hb2 : pyContains content "\x7d" = true)
    (hi : pyRFind content "\x7b" = some i) (hj : pyRFind content "\x7d" = some j) :
    (∀ es, i ≤ j → pyJsonLoads (pySlice content i (j + 1)) = some (PyVal.dict es) →
      parse_agent_response content = dictUpdate (fenceResult content) es)
    ∧ (pyJsonLoads (pySlice content i (j + 1)) = Option.none →
      parse_agent_response content = fenceResult content)
    ∧ (j < i → parse_agent_response content = fenceResult content) := by
  have hpar : parse_agent_response content
      = enrichTrailing (fenceResult content) content i j := by
    unfold parse_agent_response
    rw [hb, hb2, hi, hj]
    rfl
  rw [hpar]
  unfold enrichTrailing
  refine ⟨?_, ?_, ?_⟩
  · intro es hle hload
    rw [if_pos (by omega : i < j + 1), hload]
  · intro hload
    by_cases hlt : i < j + 1
    · rw [if_pos hlt, hload]
    · rw [if_neg hlt]
  · intro hji
    rw [if_neg (by omega : ¬ i < j + 1)]

/-- Witness for C3: a valid trailing object enriches the result; an
invalid rightmost-brace span leaves it unchanged. -/
theorem trailing_json_enrichment_witness :
    parse_agent_response "See \x7b\"summary\": \"S\"\x7d"
      = dictUpdate (fenceResult "See \x7b\"summary\": \"S\"\x7d")
          [("summary", PyVal.str "S")]
    ∧ parse_agent_response "a \x7b broken \x7d" = fenceResult "a \x7b broken \x7d" := by
  constructor
  · exact (trailing_json_enrichment "See \x7b\"summary\": \"S\"\x7d" 4 19
      rfl rfl rfl rfl).1 [("summary", PyVal.str "S")] (by omega) rfl
  · exact (trailing_json_enrichment "a \x7b broken \x7d" 2 11
      rfl rfl rfl rfl).2.1 rfl

/-- C4: when the text contains a ```html fence whose closing ``` lies
strictly after the fence opening, extraction returns the inner text of
the first such block, stripped of surrounding whitespace, with filename
`game.html`; the first-occurrence `find` calls make every later fenced
block irrelevant.  Both the agent's and the plugin's extraction are
covered. -/
theorem fenced_block_extraction (content : String) (i e : Nat)
    (hf : pyFind content "```html" = some i)
    (he : pyFindFrom content "```" (i + 7) = some e)
    (hlt : i + 7 < e) :
    dictGet (fenceResult content) "game_code"
      = some (PyVal.str (pyStrip (pySlice content (i + 7) e)))
    ∧ dictGet (fenceResult content) "filename" = some (PyVal.str "game.html")
    ∧ contentFence content = some (pyStrip (pySlice content (i + 7) e)) := by
  have hc : pyContains content "```html" = true := by
    unfold pyContains; rw [hf]; rfl
  unfold fenceResult contentFence
  rw [hc, hf]
  simp only [Option.getD_some, eq_self_iff_true, if_true, he, hlt]
  exact ⟨rfl, rfl, trivial⟩

/-- Witness for C4: a text with two fenced blocks yields the first
block's inner text. -/
theorem fenced_block_extraction_witness :
    dictGet (fenceResult "a```htmlX``` and ```htmlY```") "game_code"
      = some (PyVal.str "X")
    ∧ contentFence "a```htmlX``` and ```htmlY```" = some "X" := by
  have h := fenced_block_extraction "a```htmlX``` and ```htmlY```" 1 9 rfl rfl
    (by omega)
  exact ⟨h.1, h.2.2⟩

/-- C5: with no fenced block present, a text containing
`<!DOCTYPE html>` followed later by `</html>` extracts exactly the
substring from the doctype marker through the closing tag inclusive
(the `strip` the code applies is the identity there); and when neither
pattern is present nothing is extracted, the parse is not an error, and
the raw text stands as the summary. -/
theorem doctype_extraction :
    (∀ (content : String) (s0 e : Nat),
      pyFind content "```html" = Option.none →
      pyFind content "<!DOCTYPE html>" = some s0 →
      pyFindFrom content "</html>" s0 = some e →
      s0 < e →
      contentExtract content = some (pySlice content s0 (e + 7)))
    ∧ (∀ content : String,
      pyFind content "```html" = Option.none →
      pyFind content "<!DOCTYPE html>" = Option.none →
      pyContains content "\x7b" = false →
      contentExtract content = Option.none
      ∧ parse_agent_response content = baseResult content
      ∧ dictGet (baseResult content) "game_code" = Option.none
      ∧ dictGet (baseResult content) "success" = some (PyVal.bool true)) := by
  constructor
  · intro content s0 e hnf hd he hlt
    have hcf : pyContains content "```html" = false := by
      unfold pyContains; rw [hnf]; rfl
    have hfence : contentFence content = Option.none := by
      unfold contentFence; rw [hcf]; rfl
    have hcd : pyContains content "<!DOCTYPE html>" = true := by
      unfold pyContains; rw [hd]; rfl
    have hdoc : contentDoctype content
        = some (pyStrip (pySlice content s0 (e + 7))) := by
      unfold contentDoctype
      rw [hcd, hd]
      simp only [Option.getD_some, eq_self_iff_true, if_true, he, hlt]
    obtain ⟨t1, ht1⟩ := List.isPrefixOf_iff_prefix.mp (pyFind_some hd)
    obtain ⟨hse, hpre2⟩ := pyFindFrom_some he
    obtain ⟨t2, ht2⟩ := List.isPrefixOf_iff_prefix.mp hpre2
    have hslice : (pySlice content s0 (e + 7)).data
        = (content.data.drop s0).take (e - s0) ++ ("</html>" : String).data := by
      show (content.data.take (e + 7)).drop s0 = _
      rw [List.drop_take, show e + 7 - s0 = (e - s0) + 7 from by omega,
        List.take_add]
      congr 1
      rw [List.drop_drop, show s0 + (e - s0) = e from by omega, ← ht2]
      exact List.take_left' (by rfl)
    obtain ⟨k, hk⟩ : ∃ k, e - s0 = k + 1 := ⟨e - s0 - 1, by omega⟩
    have hA : (content.data.drop s0).take (e - s0)
        = '<' :: (("!DOCTYPE html>" : String).data ++ t1).take k := by
      rw [← ht1, hk]
      show List.take (k + 1) (('<' :: ("!DOCTYPE html>" : String).data) ++ t1) = _
      rw [List.cons_append, List.take_succ_cons]
    have hstrip : pyStrip (pySlice content s0 (e + 7))
        = pySlice content s0 (e + 7) := by
      have hh : (pySlice content s0 (e + 7)).data.head? = some '<' := by
        rw [hslice, hA, List.cons_append, List.head?_cons]
      have hl : (pySlice content s0 (e + 7)).data.getLast? = some '>' := by
        rw [hslice, List.getLast?_append]
        rfl
      exact pyStrip_of_ends hh rfl hl rfl
    unfold contentExtract
    rw [hfence]
    show contentDoctype content = _
    rw [hdoc, hstrip]
  · intro content hnf hnd hnb
    have hcf : pyContains content "```html" = false := by
      unfold pyContains; rw [hnf]; rfl
    have hcd : pyContains content "<!DOCTYPE html>" = false := by
      unfold pyContains; rw [hnd]; rfl
    have hfence : contentFence content = Option.none := by
      unfold contentFence; rw [hcf]; rfl
    have hdoc : contentDoctype content = Option.none := by
      unfold contentDoctype; rw [hcd]; rfl
    have hfr : fenceResult content = baseResult content := by
      unfold fenceResult; rw [hcf]; rfl
    refine ⟨?_, ?_, rfl, rfl⟩
    · unfold contentExtract
      rw [hfence]
      exact hdoc
    · unfold parse_agent_response
      rw [hnb]
      exact hfr

/-- Witness for C5: a doctype document without a fence is extracted
inclusively; plain prose extracts nothing and is not an error. -/
theorem doctype_extraction_witness :
    contentExtract "x<!DOCTYPE html>hi</html>y"
      = some "<!DOCTYPE html>hi</html>"
    ∧ parse_agent_response "just words" = baseResult "just words"
    ∧ contentExtract "just words" = Option.none := by
  have h2 := doctype_extraction.2 "just words" rfl rfl rfl
  exact ⟨doctype_extraction.1 "x<!DOCTYPE html>hi</html>y" 1 18 rfl rfl rfl
    (by omega), h2.2.1, h2.1⟩

/-- C6 counterexample: two distinct invocations of the bridge use the
same working directory and the same temporary script path (both are
functions of the configured website path alone), and after an invocation
the working directory still exists on disk — only the script is
removed. -/
theorem bridge_workdir_cex :
    (generate_game_with_claude_code "/repo/website" "first prompt"
        (ExecOutcome.completed 0 "out" "") ["/repo/website"]).cwd
      = (generate_game_with_claude_code "/repo/website" "second prompt"
          (ExecOutcome.completed 0 "other" "") ["/repo/website"]).cwd
    ∧ (generate_game_with_claude_code "/repo/website" "first prompt"
        (ExecOutcome.completed 0 "out" "") ["/repo/website"]).scriptPath
      = (generate_game_with_claude_code "/repo/website" "second prompt"
          (ExecOutcome.completed 0 "other" "") ["/repo/website"]).scriptPath
    ∧ (generate_game_with_claude_code "/repo/website" "first prompt"
        (ExecOutcome.completed 0 "out" "") ["/repo/website"]).cwd
      ∈ (generate_game_with_claude_code "/repo/website" "first prompt"
          (ExecOutcome.completed 0 "out" "") ["/repo/website"]).fsAfter := by
  exact ⟨rfl, rfl, by decide⟩

/-- C6 amended: every invocation runs in the shared website directory
with the fixed script path `websitePath/temp_claude_code_bridge.js`, and
after any invocation (success, nonzero exit, or exception — the code has
no timeout path) the temporary script it created no longer exists, while
the working directory is untouched. -/
theorem bridge_script_cleanup (websitePath prompt : String) (o : ExecOutcome)
    (fs : List String)
    (h : (websitePath ++ "/temp_claude_code_bridge.js") ∉ fs) :
    (generate_game_with_claude_code websitePath prompt o fs).fsAfter = fs
    ∧ (generate_game_with_claude_code websitePath prompt o fs).cwd = websitePath
    ∧ (generate_game_with_claude_code websitePath prompt o fs).scriptPath
      = websitePath ++ "/temp_claude_code_bridge.js" := by
  refine ⟨?_, rfl, rfl⟩
  show (if (websitePath ++ "/temp_claude_code_bridge.js") ∈ fs then fs
      else (websitePath ++ "/temp_claude_code_bridge.js") :: fs).erase
      (websitePath ++ "/temp_claude_code_bridge.js") = fs
  rw [if_neg h, List.erase_cons_head]

/-- Witness for C6 (amended): a concrete invocation leaves the
filesystem as it found it. -/
theorem bridge_script_cleanup_witness :
    (generate_game_with_claude_code "/w" "p" (ExecOutcome.raised "boom")
      ["/w"]).fsAfter = ["/w"] :=
  (bridge_script_cleanup "/w" "p" (ExecOutcome.raised "boom") ["/w"] (by decide)).1

/-- The three replacement passes collapse to a single per-character
pass: the backslashes introduced for backticks and dollars are not
re-doubled, because the backslash pass runs first. -/
theorem escape_flatMap (l : List Char) :
    ((l.flatMap (replChar '\\' ("\\\\" : String).data)).flatMap
        (replChar btickChar ("\\`" : String).data)).flatMap
      (replChar '$' ("\\$" : String).data)
      = l.flatMap escChar := by
  induction l with
  | nil => rfl
  | cons a t ih =>
    simp only [List.flatMap_cons, List.flatMap_append, ih]
    congr 1
    by_cases h1 : a = '\\'
    · subst h1; rfl
    · by_cases h2 : a = btickChar
      · subst h2; rfl
      · by_cases h3 : a = '$'
        · subst h3; rfl
        · simp [replChar, escChar, h1, h2, h3]

/-- C7: `_escape_js_string` is exactly the composition backslash-pass,
then backtick-pass, then dollar-pass, which equals the single-pass
escaping that maps each backslash to two backslashes and prefixes each
backtick and dollar with one backslash. -/
theorem escape_js_string_single_pass (s : String) :
    escape_js_string s = ⟨s.data.flatMap escChar⟩ :=
  congrArg String.mk (escape_flatMap s.data)

/-- C8 counterexample: with a 501-character game code, the review prompt
does not contain the original code anywhere — only its first 500
characters are embedded. -/
theorem review_prompt_truncation_cex :
    ¬ ∃ a b : String,
      build_review_prompt longGameCode "" = a ++ longGameCode ++ b := by
  rintro ⟨a, b, hab⟩
  have hcount := congrArg (fun s : String => s.data.count 'Z') hab
  simp only [build_review_prompt, String.data_append, List.count_append] at hcount
  have hA : List.count 'Z' reviewTplA.data = 0 := by decide
  have hB : List.count 'Z' reviewTplB.data = 0 := by decide
  have hC : List.count 'Z' reviewTplC.data = 0 := by decide
  have hslice : List.count 'Z' (pySlice longGameCode 0 500).data = 500 := by
    show List.count 'Z' (((List.replicate 501 'Z').take 500).drop 0) = 500
    rw [List.drop_zero, List.take_replicate, List.count_replicate_self]
    decide
  have hlong : List.count 'Z' longGameCode.data = 501 :=
    List.count_replicate_self 'Z' 501
  rw [hA, hB, hC, hslice, hlong, List.count_nil] at hcount
  omega

/-- C8 amended: the review prompt embeds the feedback in full but only
the first 500 characters of the game code, followed by a literal
truncation note; the entire original code is embedded exactly when it is
at most 500 characters long. -/
theorem review_prompt_truncated (game_code feedback : String) :
    (∃ a b : String,
      build_review_prompt game_code feedback = a ++ feedback ++ b)
    ∧ (∃ a b : String,
      build_review_prompt game_code feedback = a ++ pySlice game_code 0 500 ++ b)
    ∧ (game_code.length ≤ 500 →
      ∃ a b : String,
        build_review_prompt game_code feedback = a ++ game_code ++ b) := by
  have hmid : build_review_prompt game_code feedback
      = (reviewTplA ++ feedback ++ reviewTplB) ++ pySlice game_code 0 500
        ++ reviewTplC := by
    unfold build_review_prompt
    simp [String.append_assoc]
  refine ⟨⟨reviewTplA, reviewTplB ++ pySlice game_code 0 500 ++ reviewTplC, ?_⟩,
    ⟨reviewTplA ++ feedback ++ reviewTplB, reviewTplC, hmid⟩, ?_⟩
  · unfold build_review_prompt
    simp [String.append_assoc]
  · intro hlen
    have hslice : pySlice game_code 0 500 = game_code := by
      show (⟨(game_code.data.take 500).drop 0⟩ : String) = game_code
      rw [List.drop_zero, List.take_of_length_le hlen]
    rw [hslice] at hmid
    exact ⟨reviewTplA ++ feedback ++ reviewTplB, reviewTplC, hmid⟩

/-- Witness for C8 (amended): a short game code is embedded in full. -/
theorem review_prompt_truncated_witness :
    ∃ a b : String, build_review_prompt "tiny" "fb" = a ++ "tiny" ++ b :=
  (review_prompt_truncated "tiny" "fb").2.2 (by decide)

/-- C9: the public operations convert internal failures into
dictionaries instead of raising: an exception from the chat service
yields `success = False` with the exception text as `error` in both
`generate_game` and `review_game`; an exception in the bridge, a nonzero
subprocess exit, and an unparsable stdout likewise produce
`success = False` error dictionaries. -/
theorem orchestration_error_envelopes
    (e w p stdout stderr code : String) (fs : List String) :
    (dictGet (generate_game (SvcOutcome.raised e)) "success"
        = some (PyVal.bool false)
      ∧ dictGet (generate_game (SvcOutcome.raised e)) "error"
        = some (PyVal.str e))
    ∧ (dictGet (review_game (SvcOutcome.raised e) code) "success"
        = some (PyVal.bool false)
      ∧ dictGet (review_game (SvcOutcome.raised e) code) "error"
        = some (PyVal.str e))
    ∧ (dictGet (generate_game_with_claude_code w p (ExecOutcome.raised e) fs).result
        "success" = some (PyVal.bool false)
      ∧ dictGet (generate_game_with_claude_code w p (ExecOutcome.raised e) fs).result
        "error" = some (PyVal.str ("Failed to execute Claude Code bridge: " ++ e)))
    ∧ (dictGet (generate_game_with_claude_code w p
          (ExecOutcome.completed 1 stdout stderr) fs).result "success"
        = some (PyVal.bool false)
      ∧ dictGet (generate_game_with_claude_code w p
          (ExecOutcome.completed 1 stdout stderr) fs).result "error"
        = some (PyVal.str ("Node.js execution failed: " ++ stderr)))
    ∧ (dictGet (generate_game_with_claude_code w p
          (ExecOutcome.completed 0 "bad output" stderr) fs).result "success"
        = some (PyVal.bool false)
      ∧ dictGet (generate_game_with_claude_code w p
          (ExecOutcome.completed 0 "bad output" stderr) fs).result "error"
        = some (PyVal.str "Failed to parse Node.js output: bad output")) :=
  ⟨⟨rfl, rfl⟩, ⟨rfl, rfl⟩, ⟨rfl, rfl⟩, ⟨rfl, rfl⟩, ⟨rfl, rfl⟩⟩

/-- C10 counterexample: the agent's `review_game` returns no
`improved_code` at all when the service raises, and the plugin's
success path returns the empty extraction — not the original code —
when the response contains no messages. -/
theorem review_original_code_cex :
    dictGet (review_game (SvcOutcome.raised "service exploded") "ORIGINAL")
      "improved_code" = Option.none
    ∧ dictGet (review_and_improve_code true (QueryOutcome.messages []) "ORIGINAL")
      "improved_code" = some (PyVal.str "")
    ∧ ¬ dictGet (review_and_improve_code true (QueryOutcome.messages []) "ORIGINAL")
      "improved_code" = some (PyVal.str "ORIGINAL") := by
  refine ⟨rfl, rfl, fun hcon => ?_⟩
  rw [show dictGet (review_and_improve_code true (QueryOutcome.messages [])
      "ORIGINAL") "improved_code" = some (PyVal.str "") from rfl,
    Option.some.injEq] at hcon
  injection hcon with hstr
  exact absurd hstr (by decide)

/-- C10 amended: the plugin's review returns the original code as
`improved_code` on its exception path and on the SDK-unavailable
fallback; the agent substitutes the original code when the parsed
response lacks an `improved_code` field; but the agent's exception path
returns an error dictionary with no `improved_code` entry at all. -/
theorem review_original_code_preserved
    (e code content : String) (q : QueryOutcome) :
    dictGet (review_and_improve_code true (QueryOutcome.raised e) code)
      "improved_code" = some (PyVal.str code)
    ∧ dictGet (review_and_improve_code false q code) "improved_code"
      = some (PyVal.str code)
    ∧ (dictGet (parse_agent_response content) "improved_code" = Option.none →
      dictGet (review_game (SvcOutcome.returned [content]) code) "improved_code"
        = some (PyVal.str code))
    ∧ dictGet (review_game (SvcOutcome.raised e) code) "improved_code"
      = Option.none := by
  refine ⟨rfl, rfl, fun h => ?_, rfl⟩
  show some (dictGetD (parse_agent_response content) "improved_code"
    (PyVal.str code)) = some (PyVal.str code)
  unfold dictGetD
  rw [h]
  rfl

/-- Witness for C10 (amended): a plain response with no code keeps the
caller's original code. -/
theorem review_original_code_preserved_witness :
    dictGet (review_game (SvcOutcome.returned ["plain answer"]) "KEEP")
      "improved_code" = some (PyVal.str "KEEP") :=
  (review_original_code_preserved "e" "KEEP" "plain answer"
    (QueryOutcome.messages [])).2.2.1 rfl

end LovableClone
